import Mathlib

/-!
# Verification of the BlueBubbles-Server chat router

A shallow embedding of
`packages/server/src/server/services/httpService/api/v1/routers/chatRouter.ts`.

External collaborators (the iMessage repository mirror, the `ChatInterface`
action layer, the response serializers and the event emitter) live outside the
router file; they are modelled as an explicit environment `Env` of functions,
and every call that submits work to the out-of-band action executor or emits an
event is recorded in an explicit `Effect` trace, so that theorems can state
"no executor call was made" as an empty trace.
-/

set_option autoImplicit false

namespace BlueBubbles

/-- A chat as returned by the repository mirror.  A participant is identified
by its address (the router only ever inspects the roster's length, never
individual participant fields). -/
structure Chat where
  guid : String
  serviceName : String
  participants : List String
  displayName : Option String
deriving DecidableEq, Repr

/-- An abstract message entity as returned by the repository mirror. -/
structure Message where
  guid : String
deriving DecidableEq, Repr

/-- The serialized message shape produced by `getMessageResponse`.  The router
only ever writes the `tempGuid` field. -/
structure MessageResponse where
  guid : String
  tempGuid : Option String
deriving DecidableEq, Repr

/-- The serialized chat shape produced by `getChatResponse`.  `messages` is
only populated on create responses (`data.messages ?? []` in the source), and
`lastMessage` is attached by `find` on request. -/
structure ChatResponse where
  guid : String
  displayName : Option String
  messages : Option (List MessageResponse)
  lastMessage : Option MessageResponse
deriving DecidableEq, Repr

/-- Body of `POST /chats` as destructured by `ChatRouter.create`. -/
structure CreateParams where
  addresses : Option (List String)
  message : Option String
  method : Option String
  service : Option String
  tempGuid : Option String
deriving DecidableEq, Repr

/-- Roster toggle direction (`"add" | "remove"` in the source). -/
inductive ToggleAction where
  | add
  | remove
deriving DecidableEq, Repr

/-- Parameters handed to `ChatInterface.get` by `ChatRouter.query`. -/
structure ChatQueryParams where
  guid : Option String
  withParticipants : Bool
  withLastMessage : Bool
  withArchived : Bool
  offset : Int
  limit : Int
  sort : Option String
deriving DecidableEq, Repr

/-- Errors thrown by the router: `NotFound({error})`,
`IMessageError({message?, error})`, an uncaught collaborator rejection, and the
spec taxonomy's `InvalidOperation` raised by the (spec-modelled) roster
manager. -/
inductive ApiError where
  | notFound (error : String)
  | iMessage (message : Option String) (error : String)
  | invalidOperation (error : String)
  | thrown (error : String)
deriving DecidableEq, Repr

/-- Payload of the `chat-read-status-changed` event. -/
structure ReadEvent where
  chatGuid : String
  read : Bool
deriving DecidableEq, Repr

/-- Observable side effects of a handler: submissions to the action executor
(via `ChatInterface` / `privateApiHelper`) and event emissions. -/
inductive Effect where
  | setDisplayNameSubmit (chatGuid : String) (displayName : String)
  | toggleParticipantSubmit (chatGuid : String) (address : String) (action : ToggleAction)
  | markChatReadSubmit (chatGuid : String)
  | emitMessage (event : String) (payload : ReadEvent)
deriving DecidableEq, Repr

/-- The collaborators the router calls, abstracted as pure functions:
* `getAllChats` — `Server().iMessageRepo.getChats()` with no filter;
* `getChats g wp` — `Server().iMessageRepo.getChats({chatGuid: g, withParticipants: wp})`;
* `getChatLastMessage` / `getChatCount` — the other repository queries;
* `getMessageResponse` / `getChatResponse` — the entity serializers;
* `chatInterfaceGet` — `ChatInterface.get` used by `query`;
* `setDisplayName` — `ChatInterface.setDisplayName` (throws with a message on failure);
* `createChat` — `ChatInterface.create` (`none` models a falsy result);
* `markChatRead` — `Server().privateApiHelper.markChatRead` (may reject). -/
structure Env where
  getAllChats : List Chat
  getChats : String → Bool → List Chat
  getChatLastMessage : String → Message
  getChatCount : Nat
  getMessageResponse : Message → MessageResponse
  getChatResponse : Chat → ChatResponse
  chatInterfaceGet : ChatQueryParams → List ChatResponse
  setDisplayName : Chat → String → Except String Chat
  createChat : CreateParams → Option Chat
  markChatRead : String → Except String Unit

/-- JavaScript truthiness of an optional string (`undefined`, `null` and `""`
are falsy). -/
def jsTruthyStr : Option String → Bool
  | none => false
  | some s => !(s == "")

/-- Helper `isEmpty` from `@server/helpers/utils` restricted to optional strings:
true on `undefined` / `null` / `""`. -/
def isEmptyStr : Option String → Bool
  | none => true
  | some s => s == ""

/-- Helper `isNotEmpty` from `@server/helpers/utils` restricted to optional strings. -/
def isNotEmptyStr (x : Option String) : Bool :=
  !(isEmptyStr x)

/-- Parsing of the `with` query parameter in `find`:
`(w ?? "").toLowerCase().split(",").map(safeTrim)`. -/
def parseWithQuery (w : Option String) : List String :=
  ((w.getD "").toLower.splitOn ",").map String.trim

/-! ## `ChatRouter.count` (`GET /chats/count`) -/

/-- One iteration of the service-count loop: JS
`if (!Object.keys(sc).includes(s)) sc[s] = 0; sc[s] += 1` on an object kept as
an insertion-ordered association list. -/
def bumpService (acc : List (String × Nat)) (s : String) : List (String × Nat) :=
  if (acc.map Prod.fst).contains s then
    acc.map fun p => if p.1 = s then (p.1, p.2 + 1) else p
  else
    acc ++ [(s, 1)]

/-- The `serviceCounts` object built by `ChatRouter.count`. -/
def serviceCounts (chats : List Chat) : List (String × Nat) :=
  chats.foldl (fun acc chat => bumpService acc chat.serviceName) []

/-- The `{ total, breakdown }` payload returned by `count`. -/
structure CountData where
  total : Nat
  breakdown : List (String × Nat)
deriving DecidableEq, Repr

/-- Handler `ChatRouter.count`: fetch all chats, tally by `serviceName`, return
`{ total: chats.length, breakdown: serviceCounts }`. -/
def ChatRouter.count (env : Env) : CountData :=
  let chats := env.getAllChats
  { total := chats.length, breakdown := serviceCounts chats }

/-- Key lookup on the association-list model of a JS object (first match). -/
def lookupCount : List (String × Nat) → String → Option Nat
  | [], _ => none
  | p :: rest, s => if s = p.1 then some p.2 else lookupCount rest s

/-- Number of chats in `chats` whose service is `s`. -/
def countService (chats : List Chat) (s : String) : Nat :=
  (chats.filter fun c => c.serviceName = s).length

/-! ## `ChatRouter.find` (`GET /chats/:guid`) -/

/-- Handler `ChatRouter.find`: parse the `with` query, look the chat up by guid, 404
when absent, otherwise serialize it and attach the targeted last-message query
result when `lastmessage` was requested. -/
def ChatRouter.find (env : Env) (guid : String) (w : Option String) :
    Except ApiError ChatResponse :=
  let withQuery := parseWithQuery w
  let withParticipants := withQuery.contains "participants"
  let withLastMessage := withQuery.contains "lastmessage"
  match env.getChats guid withParticipants with
  | [] => Except.error (ApiError.notFound "Chat does not exist!")
  | chat :: _ =>
    let res := env.getChatResponse chat
    if withLastMessage then
      Except.ok { res with
        lastMessage := some (env.getMessageResponse (env.getChatLastMessage guid)) }
    else
      Except.ok res

/-! ## `ChatRouter.query` (`POST /chats/query`) -/

/-- Body of `POST /chats/query` as destructured by the handler (`with` after
the string filter). -/
structure QueryBody where
  withItems : List String
  guid : Option String
  sort : Option String
  offset : Option Int
  limit : Option Int
deriving DecidableEq, Repr

/-- JS `x ? Number.parseInt(x, 10) : dflt` on an optional numeric body value
(`0` is falsy, so it also selects the default). -/
def jsNumOr (x : Option Int) (dflt : Int) : Int :=
  match x with
  | none => dflt
  | some n => if n = 0 then dflt else n

/-- The `metadata` object built by `query` (raw `offset`/`limit` echoed
back). -/
structure QueryMetadata where
  total : Nat
  offset : Option Int
  limit : Option Int
deriving DecidableEq, Repr

/-- The `{ data, metadata }` payload returned by `query`. -/
structure QueryResult where
  data : List ChatResponse
  metadata : QueryMetadata
deriving DecidableEq, Repr

/-- Handler `ChatRouter.query`: forward filters to `ChatInterface.get`, then report
`metadata.total` from the separate unfiltered `getChatCount` query. -/
def ChatRouter.query (env : Env) (body : QueryBody) : QueryResult :=
  let withQuery := body.withItems.map fun e => (e.toLower).trim
  let results := env.chatInterfaceGet
    { guid := body.guid
      withParticipants := withQuery.contains "participants"
      withLastMessage := withQuery.contains "lastmessage"
      withArchived := withQuery.contains "archived"
      offset := jsNumOr body.offset 0
      limit := jsNumOr body.limit 1000
      sort := body.sort }
  { data := results
    metadata := { total := env.getChatCount, offset := body.offset, limit := body.limit } }

/-! ## `ChatRouter.update` (`PUT /chats/:guid`) -/

/-- A `Success` payload with a message and a serialized chat. -/
structure SuccessBody where
  message : String
  data : ChatResponse
deriving DecidableEq, Repr

/-- Lines 149–161 of the source: throw the aggregate error when any per-field
error was collected, otherwise build the response from the (possibly updated)
chat and report which fields were updated. -/
def updateFinish (env : Env) (chat : Chat) (updated errors : List String)
    (effs : List Effect) : Except ApiError SuccessBody × List Effect :=
  if !errors.isEmpty then
    (Except.error (ApiError.iMessage (some "Chat update executed with errors!")
      (String.intercalate ", " errors)), effs)
  else if updated.isEmpty then
    (Except.ok { message := "Chat not updated! No update information provided!",
                 data := env.getChatResponse chat }, effs)
  else
    (Except.ok { message := "Successfully updated the following fields: " ++
                   String.intercalate ", " updated,
                 data := env.getChatResponse chat }, effs)

/-- Handler `ChatRouter.update`: resolve the chat (404 when absent); when a truthy
`displayName` is supplied, reject non-group chats before any executor call,
otherwise attempt the rename, collecting the field into `updated` on success
and its message into `errors` on failure; finish via `updateFinish`. -/
def ChatRouter.update (env : Env) (guid : String) (displayName : Option String) :
    Except ApiError SuccessBody × List Effect :=
  match env.getChats guid true with
  | [] => (Except.error (ApiError.notFound "Chat does not exist!"), [])
  | chat :: _ =>
    if jsTruthyStr displayName then
      if chat.participants.length ≤ 1 then
        (Except.error (ApiError.iMessage (some "Cannot rename a non-group chat!")
          "Chat is not a group"), [])
      else
        let dn := displayName.getD ""
        match env.setDisplayName chat dn with
        | Except.ok chat2 =>
          updateFinish env chat2 ["displayName"] []
            [Effect.setDisplayNameSubmit chat.guid dn]
        | Except.error m =>
          updateFinish env chat [] [m]
            [Effect.setDisplayNameSubmit chat.guid dn]
    else
      updateFinish env chat [] [] []

/-! ## `ChatRouter.create` (`POST /chats`) -/

/-- Handler `ChatRouter.create`: delegate to `ChatInterface.create`; a falsy result is
an error; otherwise serialize the chat and, when a non-empty `tempGuid` was
supplied, stamp it onto every message the response carries
(`for (const i of data.messages ?? []) i.tempGuid = tempGuid`). -/
def ChatRouter.create (env : Env) (p : CreateParams) : Except ApiError SuccessBody :=
  match env.createChat p with
  | none => Except.error (ApiError.iMessage none "Failed to create chat!")
  | some chat =>
    let data := env.getChatResponse chat
    let data :=
      if isNotEmptyStr p.tempGuid then
        { data with messages :=
            data.messages.map (List.map fun m => { m with tempGuid := p.tempGuid }) }
      else data
    Except.ok { message := "Successfully created chat!", data := data }

/-- The stamping loop of `create`
(`for (const i of data.messages ?? []) i.tempGuid = tempGuid`): set `tempGuid`
on every carried message, leaving an absent `messages` field absent. -/
def stampTempGuid (t : Option String) (d : ChatResponse) : ChatResponse :=
  { d with messages := d.messages.map (List.map fun m => { m with tempGuid := t }) }

/-- The `data` payload `create` responds with for a confirmed `chat`. -/
def createdData (env : Env) (p : CreateParams) (chat : Chat) : ChatResponse :=
  if isNotEmptyStr p.tempGuid then stampTempGuid p.tempGuid (env.getChatResponse chat)
  else env.getChatResponse chat

/-! ## `ChatRouter.markRead` (`POST /chats/:guid/read`) -/

/-- An acknowledgement-only `Success` payload. -/
structure Ack where
  message : String
deriving DecidableEq, Repr

/-- Handler `ChatRouter.markRead`: submit the mark-read action, then emit
`chat-read-status-changed` with `{chatGuid, read: true}` and acknowledge.  A
rejected submission propagates and skips the emission. -/
def ChatRouter.markRead (env : Env) (guid : String) :
    Except ApiError Ack × List Effect :=
  match env.markChatRead guid with
  | Except.error e => (Except.error (ApiError.thrown e), [Effect.markChatReadSubmit guid])
  | Except.ok _ =>
    (Except.ok { message := "Successfully marked chat as read!" },
     [Effect.markChatReadSubmit guid,
      Effect.emitMessage "chat-read-status-changed" { chatGuid := guid, read := true }])

/-! ## Roster toggles (`POST`/`DELETE /chats/:guid/participant`) -/

/-- Modelled from the spec: `ChatInterface.toggleParticipant`
(`@server/api/v1/interfaces/chatInterface`) is imported by the router but its
implementation is not under `src/`.  Per the specification it "Submits the
roster-change action to ActionExecutor, then re-resolves the chat with
participants expanded and returns the updated roster", and "Rejects with
`InvalidOperation` if attempting to remove the last remaining participant (a
chat may not be reduced below one participant)". -/
def ChatInterface.toggleParticipant (env : Env) (chat : Chat) (address : String)
    (action : ToggleAction) : Except ApiError Chat × List Effect :=
  if action = ToggleAction.remove ∧ chat.participants.length ≤ 1 then
    (Except.error (ApiError.invalidOperation
      "A chat may not be reduced below one participant"), [])
  else
    (Except.ok
      (match env.getChats chat.guid true with
        | [] => chat
        | resolved :: _ => resolved),
     [Effect.toggleParticipantSubmit chat.guid address action])

/-- Handler `ChatRouter.toggleParticipant`: resolve the chat (404 when absent), then
delegate to `ChatInterface.toggleParticipant` and serialize the result;
interface errors propagate. -/
def ChatRouter.toggleParticipant (env : Env) (guid : String) (address : String)
    (action : ToggleAction) : Except ApiError ChatResponse × List Effect :=
  match env.getChats guid true with
  | [] => (Except.error (ApiError.notFound "Chat does not exist!"), [])
  | chat :: _ =>
    match ChatInterface.toggleParticipant env chat address action with
    | (Except.error e, effs) => (Except.error e, effs)
    | (Except.ok chat2, effs) => (Except.ok (env.getChatResponse chat2), effs)

/-- Handler `ChatRouter.addParticipant` delegates with `add`. -/
def ChatRouter.addParticipant (env : Env) (guid : String) (address : String) :
    Except ApiError ChatResponse × List Effect :=
  ChatRouter.toggleParticipant env guid address ToggleAction.add

/-- Handler `ChatRouter.removeParticipant` delegates with `remove`. -/
def ChatRouter.removeParticipant (env : Env) (guid : String) (address : String) :
    Except ApiError ChatResponse × List Effect :=
  ChatRouter.toggleParticipant env guid address ToggleAction.remove

/-! ## Concrete fixtures used by the witness theorems -/

/-- A one-participant (direct) chat. -/
def chatSolo : Chat :=
  { guid := "iMessage;-;+15551234567", serviceName := "iMessage",
    participants := ["+15551234567"], displayName := none }

/-- A two-participant group chat. -/
def chatGroup : Chat :=
  { guid := "iMessage;+;chat123", serviceName := "iMessage",
    participants := ["+15551230001", "+15551230002"], displayName := some "Team" }

/-- A concrete mirror message. -/
def msgA : Message := { guid := "msg-1" }

/-- A serializer that carries no messages and no last message. -/
def baseResponse (c : Chat) : ChatResponse :=
  { guid := c.guid, displayName := c.displayName, messages := none, lastMessage := none }

/-- A serializer that carries one message with no `tempGuid` yet. -/
def createResponse (c : Chat) : ChatResponse :=
  { guid := c.guid, displayName := c.displayName,
    messages := some [{ guid := "msg-new", tempGuid := none }], lastMessage := none }

/-- Environment whose store holds only the direct chat `chatSolo`. -/
def envSolo : Env :=
  { getAllChats := [chatSolo]
    getChats := fun _ _ => [chatSolo]
    getChatLastMessage := fun _ => msgA
    getChatCount := 1
    getMessageResponse := fun m => { guid := m.guid, tempGuid := none }
    getChatResponse := baseResponse
    chatInterfaceGet := fun _ => []
    setDisplayName := fun c _ => Except.ok c
    createChat := fun _ => none
    markChatRead := fun _ => Except.ok () }

/-- Environment whose store holds the group chat and whose rename action
fails. -/
def envGroupErr : Env :=
  { getAllChats := [chatGroup]
    getChats := fun _ _ => [chatGroup]
    getChatLastMessage := fun _ => msgA
    getChatCount := 1
    getMessageResponse := fun m => { guid := m.guid, tempGuid := none }
    getChatResponse := baseResponse
    chatInterfaceGet := fun _ => []
    setDisplayName := fun _ _ => Except.error "Failed to rename group!"
    createChat := fun _ => none
    markChatRead := fun _ => Except.ok () }

/-- Environment whose create action succeeds with `chatGroup`, serialized with
one fresh message. -/
def envCreate : Env :=
  { getAllChats := [chatGroup]
    getChats := fun _ _ => [chatGroup]
    getChatLastMessage := fun _ => msgA
    getChatCount := 1
    getMessageResponse := fun m => { guid := m.guid, tempGuid := none }
    getChatResponse := createResponse
    chatInterfaceGet := fun _ => []
    setDisplayName := fun c _ => Except.ok c
    createChat := fun _ => some chatGroup
    markChatRead := fun _ => Except.ok () }

/-- Environment for the `find` witness: the serializer already carries the
same last message the targeted query returns. -/
def envFind : Env :=
  { getAllChats := [chatSolo]
    getChats := fun _ _ => [chatSolo]
    getChatLastMessage := fun _ => msgA
    getChatCount := 1
    getMessageResponse := fun m => { guid := m.guid, tempGuid := none }
    getChatResponse := fun c =>
      { guid := c.guid, displayName := c.displayName, messages := none,
        lastMessage := some { guid := "msg-1", tempGuid := none } }
    chatInterfaceGet := fun _ => []
    setDisplayName := fun c _ => Except.ok c
    createChat := fun _ => none
    markChatRead := fun _ => Except.ok () }

/-- A concrete create request with a supplied `tempGuid`. -/
def pCreate : CreateParams :=
  { addresses := some ["+15551234567"], message := some "hello",
    method := some "apple-script", service := some "iMessage",
    tempGuid := some "abc123" }

theorem lookupCount_eq_none_iff (acc : List (String × Nat)) (s : String) :
    lookupCount acc s = none ↔ s ∉ acc.map Prod.fst := by
  induction acc with
  | nil => simp [lookupCount]
  | cons p rest ih =>
    by_cases h : s = p.1 <;> simp [lookupCount, h, ih]

theorem lookupCount_append (a b : List (String × Nat)) (s : String) :
    lookupCount (a ++ b) s =
      match lookupCount a s with
      | some v => some v
      | none => lookupCount b s := by
  induction a with
  | nil => simp [lookupCount]
  | cons p rest ih =>
    by_cases h : s = p.1 <;> simp [lookupCount, h, ih]

theorem lookupCount_mapBump (acc : List (String × Nat)) (t s : String) :
    lookupCount (acc.map fun p => if p.1 = t then (p.1, p.2 + 1) else p) s =
      (lookupCount acc s).map fun v => if s = t then v + 1 else v := by
  induction acc with
  | nil => simp [lookupCount]
  | cons p rest ih =>
    by_cases hpt : p.1 = t
    · by_cases hsp : s = p.1
      · simp [lookupCount, hpt, hsp]
      · have hst : ¬s = t := by
          intro h
          exact hsp (by rw [hpt]; exact h)
        simp [lookupCount, hpt, hsp, hst, ih]
    · by_cases hsp : s = p.1
      · simp [lookupCount, hpt, hsp]
      · simp [lookupCount, hpt, hsp, ih]

theorem contains_iff_mem_keys (keys : List String) (t : String) :
    keys.contains t = true ↔ t ∈ keys := by
  induction keys with
  | nil => simp
  | cons k rest ih =>
    simp only [List.contains_cons, Bool.or_eq_true, beq_iff_eq, List.mem_cons, ih]

theorem lookupCount_bumpService (acc : List (String × Nat)) (t s : String) :
    lookupCount (bumpService acc t) s =
      if s = t then
        match lookupCount acc t with
        | some v => some (v + 1)
        | none => some 1
      else lookupCount acc s := by
  by_cases hmem : (acc.map Prod.fst).contains t = true
  · have hmem' : ¬lookupCount acc t = none := by
      intro hn
      exact ((lookupCount_eq_none_iff acc t).1 hn)
        ((contains_iff_mem_keys _ t).1 hmem)
    rw [bumpService, if_pos hmem, lookupCount_mapBump]
    by_cases hst : s = t
    · subst hst
      cases h : lookupCount acc s with
      | none => exact absurd h hmem'
      | some v => simp [h]
    · cases h : lookupCount acc s with
      | none => simp [h, hst]
      | some v => simp [h, hst]
  · have hmem' : lookupCount acc t = none := by
      rw [lookupCount_eq_none_iff]
      intro hm
      exact hmem ((contains_iff_mem_keys _ t).2 hm)
    rw [bumpService, if_neg hmem, lookupCount_append]
    by_cases hst : s = t
    · subst hst
      simp [hmem', lookupCount]
    · cases h : lookupCount acc s with
      | none => simp [h, lookupCount, hst]
      | some v => simp [h, hst]

theorem keys_map_bump (acc : List (String × Nat)) (t : String) :
    ((acc.map fun p => if p.1 = t then (p.1, p.2 + 1) else p).map Prod.fst) =
      acc.map Prod.fst := by
  induction acc with
  | nil => rfl
  | cons p rest ih =>
    by_cases h : p.1 = t <;> simp [h, ih]

theorem keys_bumpService (acc : List (String × Nat)) (t : String) :
    (bumpService acc t).map Prod.fst =
      if (acc.map Prod.fst).contains t then acc.map Prod.fst
      else acc.map Prod.fst ++ [t] := by
  by_cases hmem : (acc.map Prod.fst).contains t = true
  · rw [bumpService, if_pos hmem, if_pos hmem, keys_map_bump]
  · rw [bumpService, if_neg hmem, if_neg hmem, List.map_append]
    rfl

theorem nodup_keys_bumpService (acc : List (String × Nat)) (t : String)
    (h : (acc.map Prod.fst).Nodup) : ((bumpService acc t).map Prod.fst).Nodup := by
  rw [keys_bumpService]
  by_cases hmem : (acc.map Prod.fst).contains t = true
  · rw [if_pos hmem]
    exact h
  · rw [if_neg hmem]
    refine List.Nodup.append h (List.nodup_singleton t) ?_
    intro a ha hb
    simp only [List.mem_singleton] at hb
    subst hb
    exact hmem ((contains_iff_mem_keys _ a).2 ha)

theorem map_self {α : Type} (l : List α) : (l.map fun a => a) = l := by
  induction l with
  | nil => rfl
  | cons a rest ih => simp [ih]

theorem sum_map_bump (acc : List (String × Nat)) (t : String)
    (hnd : (acc.map Prod.fst).Nodup) (hmem : t ∈ acc.map Prod.fst) :
    ((acc.map fun p => if p.1 = t then (p.1, p.2 + 1) else p).map Prod.snd).sum =
      (acc.map Prod.snd).sum + 1 := by
  induction acc with
  | nil => simp at hmem
  | cons p rest ih =>
    simp only [List.map_cons, List.nodup_cons] at hnd
    by_cases hpt : p.1 = t
    · have hrest : ∀ q ∈ rest, (if q.1 = t then (q.1, q.2 + 1) else q) = q := by
        intro q hq
        have hq1 : ¬q.1 = t := by
          intro hqt
          apply hnd.1
          rw [hpt, ← hqt]
          exact List.mem_map_of_mem Prod.fst hq
        simp [hq1]
      rw [List.map_cons, if_pos hpt, List.map_congr_left hrest, map_self]
      simp only [List.map_cons, List.sum_cons]
      omega
    · have hmem' : t ∈ rest.map Prod.fst := by
        simp only [List.map_cons, List.mem_cons] at hmem
        rcases hmem with h | h
        · exact absurd h.symm hpt
        · exact h
      rw [List.map_cons, if_neg hpt]
      simp only [List.map_cons, List.sum_cons]
      rw [ih hnd.2 hmem']
      omega

theorem sum_bumpService (acc : List (String × Nat)) (t : String)
    (h : (acc.map Prod.fst).Nodup) :
    ((bumpService acc t).map Prod.snd).sum = (acc.map Prod.snd).sum + 1 := by
  by_cases hmem : (acc.map Prod.fst).contains t = true
  · rw [bumpService, if_pos hmem]
    exact sum_map_bump acc t h ((contains_iff_mem_keys _ t).1 hmem)
  · rw [bumpService, if_neg hmem]
    simp

/-- Main loop invariant for `serviceCounts`: folding `bumpService` over `chats`
starting from any accumulator with nodup keys whose lookup table is `f`
produces nodup keys, the pointwise sum table, and adds `chats.length` to the
value sum. -/
theorem serviceCounts_loop (chats : List Chat) (acc : List (String × Nat))
    (f : String → Nat)
    (hnd : (acc.map Prod.fst).Nodup)
    (hf : ∀ s, lookupCount acc s = if f s = 0 then none else some (f s)) :
    (((chats.foldl (fun a c => bumpService a c.serviceName) acc).map Prod.fst).Nodup ∧
      (∀ s, lookupCount (chats.foldl (fun a c => bumpService a c.serviceName) acc) s =
        if f s + countService chats s = 0 then none
        else some (f s + countService chats s)) ∧
      ((chats.foldl (fun a c => bumpService a c.serviceName) acc).map Prod.snd).sum =
        (acc.map Prod.snd).sum + chats.length) := by
  induction chats generalizing acc f with
  | nil =>
    refine ⟨hnd, ?_, by simp⟩
    intro s
    simpa [countService] using hf s
  | cons c rest ih =>
    simp only [List.foldl_cons]
    have hnd' := nodup_keys_bumpService acc c.serviceName hnd
    have hf' : ∀ s, lookupCount (bumpService acc c.serviceName) s =
        if (f s + if s = c.serviceName then 1 else 0) = 0 then none
        else some (f s + if s = c.serviceName then 1 else 0) := by
      intro s
      rw [lookupCount_bumpService]
      by_cases hst : s = c.serviceName
      · subst hst
        rw [hf c.serviceName]
        by_cases hz : f c.serviceName = 0 <;> simp [hz]
      · simp only [if_neg hst]
        rw [hf s]
        simp
    have hmain := ih (bumpService acc c.serviceName)
      (fun s => f s + if s = c.serviceName then 1 else 0) hnd' hf'
    refine ⟨hmain.1, ?_, ?_⟩
    · intro s
      have h2 := hmain.2.1 s
      have hcs : countService (c :: rest) s =
          (if s = c.serviceName then 1 else 0) + countService rest s := by
        by_cases h' : s = c.serviceName
        · simp [countService, h', Nat.add_comm]
        · have h : ¬c.serviceName = s := fun hh => h' hh.symm
          simp [countService, h, h']
      rw [hcs, h2]
      have : f s + (if s = c.serviceName then 1 else 0) + countService rest s =
          f s + ((if s = c.serviceName then 1 else 0) + countService rest s) := by omega
      rw [this]
    · rw [hmain.2.2, sum_bumpService acc c.serviceName hnd]
      simp only [List.length_cons]
      omega

/-- C5: the count summary returns `total` equal to the size of the full
unfiltered chat set, `breakdown` maps exactly the occurring service names to
their chat counts (absent services do not appear), and the breakdown values
sum to `total`. -/
theorem count_summary (env : Env) :
    (ChatRouter.count env).total = env.getAllChats.length ∧
    (∀ s, lookupCount (ChatRouter.count env).breakdown s =
      if countService env.getAllChats s = 0 then none
      else some (countService env.getAllChats s)) ∧
    ((ChatRouter.count env).breakdown.map Prod.snd).sum = (ChatRouter.count env).total := by
  have h := serviceCounts_loop env.getAllChats [] (fun _ => 0)
    (by simp) (by intro s; simp [lookupCount])
  refine ⟨rfl, ?_, ?_⟩
  · intro s
    have hs := h.2.1 s
    simpa [ChatRouter.count, serviceCounts] using hs
  · have hs := h.2.2
    simpa [ChatRouter.count, serviceCounts] using hs

theorem setMessages_self (r : ChatResponse) (x : Option (List MessageResponse))
    (h : r.messages = x) : { r with messages := x } = r := by
  cases r
  simp only at h
  rw [h]

/-- C6: `find` fails with `NotFound` exactly when the store returns no chat
for the guid; otherwise it returns the serialized first chat, attaching the
result of the separate targeted last-message query for that guid exactly when
`lastmessage` was requested. -/
theorem chatRouter_find_contract (env : Env) (guid : String) (w : Option String) :
    (ChatRouter.find env guid w =
        Except.error (ApiError.notFound "Chat does not exist!") ↔
      env.getChats guid ((parseWithQuery w).contains "participants") = []) ∧
    (∀ chat rest,
      env.getChats guid ((parseWithQuery w).contains "participants") = chat :: rest →
      ChatRouter.find env guid w = Except.ok
        (if (parseWithQuery w).contains "lastmessage" then
          { env.getChatResponse chat with
            lastMessage := some (env.getMessageResponse (env.getChatLastMessage guid)) }
        else env.getChatResponse chat)) := by
  refine ⟨⟨?_, ?_⟩, ?_⟩
  · intro h
    cases hc : env.getChats guid ((parseWithQuery w).contains "participants") with
    | nil => rfl
    | cons chat rest =>
      exfalso
      simp only [ChatRouter.find, hc] at h
      by_cases hwl : (parseWithQuery w).contains "lastmessage" = true
      · rw [if_pos hwl] at h
        exact Except.noConfusion h
      · rw [if_neg hwl] at h
        exact Except.noConfusion h
  · intro h
    simp only [ChatRouter.find, h]
  · intro chat rest hc
    simp only [ChatRouter.find, hc]
    by_cases hwl : (parseWithQuery w).contains "lastmessage" = true
    · rw [if_pos hwl, if_pos hwl]
    · rw [if_neg hwl, if_neg hwl]

theorem chatRouter_find_contract_witness :
    ChatRouter.find envFind "iMessage;-;+15551234567" (some "lastMessage") =
      Except.ok { guid := "iMessage;-;+15551234567", displayName := none,
                  messages := none,
                  lastMessage := some { guid := "msg-1", tempGuid := none } } := by
  have h := (chatRouter_find_contract envFind "iMessage;-;+15551234567"
    (some "lastMessage")).2 chatSolo [] rfl
  refine h.trans ?_
  by_cases hwl : (parseWithQuery (some "lastMessage")).contains "lastmessage" = true
  · rw [if_pos hwl]
    rfl
  · rw [if_neg hwl]
    rfl

/-- C9: `query` always reports `metadata.total` as the separate unfiltered
repository chat count: it equals `getChatCount` for every body, `data` is the
filtered `ChatInterface.get` result, and the reported total is invariant under
changing the guid filter, offset or limit. -/
theorem chatRouter_query_total_unfiltered (env : Env) (body : QueryBody) :
    (ChatRouter.query env body).metadata.total = env.getChatCount ∧
    (ChatRouter.query env body).data = env.chatInterfaceGet
      { guid := body.guid
        withParticipants :=
          (body.withItems.map fun e => (e.toLower).trim).contains "participants"
        withLastMessage :=
          (body.withItems.map fun e => (e.toLower).trim).contains "lastmessage"
        withArchived :=
          (body.withItems.map fun e => (e.toLower).trim).contains "archived"
        offset := jsNumOr body.offset 0
        limit := jsNumOr body.limit 1000
        sort := body.sort } ∧
    (∀ other : QueryBody, (ChatRouter.query env body).metadata.total =
      (ChatRouter.query env other).metadata.total) :=
  ⟨rfl, rfl, fun _ => rfl⟩

/-- C2: a rename request (truthy `displayName`) on a chat whose roster has at
most one participant fails with the roster-invariant error ("Cannot rename a
non-group chat!", the spec's `InvalidOperation`) and produces an empty effect
trace: nothing is submitted to the action executor. -/
theorem chatRouter_update_nonGroup_rejected (env : Env) (guid : String)
    (dn : Option String) (chat : Chat) (rest : List Chat)
    (hc : env.getChats guid true = chat :: rest)
    (hp : chat.participants.length ≤ 1)
    (hd : jsTruthyStr dn = true) :
    ChatRouter.update env guid dn =
      (Except.error (ApiError.iMessage (some "Cannot rename a non-group chat!")
        "Chat is not a group"), []) := by
  simp [ChatRouter.update, hc, hd, hp]

theorem chatRouter_update_nonGroup_rejected_witness :
    ChatRouter.update envSolo "iMessage;-;+15551234567" (some "Team") =
      (Except.error (ApiError.iMessage (some "Cannot rename a non-group chat!")
        "Chat is not a group"), []) :=
  chatRouter_update_nonGroup_rejected envSolo "iMessage;-;+15551234567"
    (some "Team") chatSolo [] rfl (by decide) (by decide)

/-- C4: on a group chat with a truthy `displayName`, `update` always attempts
the one recognized field mutation (the executor submission appears in the
trace in both outcomes); a failed mutation is reported in the aggregate error
(a success response is never sent, signalling nothing changed), and a
successful one is reported in the updated-fields message. -/
theorem chatRouter_update_perField_report (env : Env) (guid : String)
    (dn : Option String) (chat : Chat) (rest : List Chat)
    (hc : env.getChats guid true = chat :: rest)
    (hp : 1 < chat.participants.length)
    (hd : jsTruthyStr dn = true) :
    (∀ chat2, env.setDisplayName chat (dn.getD "") = Except.ok chat2 →
      ChatRouter.update env guid dn =
        (Except.ok { message := "Successfully updated the following fields: displayName",
                     data := env.getChatResponse chat2 },
         [Effect.setDisplayNameSubmit chat.guid (dn.getD "")])) ∧
    (∀ m, env.setDisplayName chat (dn.getD "") = Except.error m →
      ChatRouter.update env guid dn =
        (Except.error (ApiError.iMessage (some "Chat update executed with errors!") m),
         [Effect.setDisplayNameSubmit chat.guid (dn.getD "")])) := by
  have hnp : ¬chat.participants.length ≤ 1 := by omega
  constructor
  · intro chat2 hs
    simp [ChatRouter.update, hc, hd, hnp, hs, updateFinish]
    rfl
  · intro m hs
    simp [ChatRouter.update, hc, hd, hnp, hs, updateFinish]
    rfl

theorem chatRouter_update_perField_report_witness :
    ChatRouter.update envGroupErr "iMessage;+;chat123" (some "Team") =
      (Except.error (ApiError.iMessage (some "Chat update executed with errors!")
        "Failed to rename group!"),
       [Effect.setDisplayNameSubmit "iMessage;+;chat123" "Team"]) :=
  (chatRouter_update_perField_report envGroupErr "iMessage;+;chat123"
    (some "Team") chatGroup [] rfl (by decide) (by decide)).2
    "Failed to rename group!" rfl

/-- C10: an update request on an existing chat that supplies no truthy
`displayName` succeeds with the no-update message, returns the unchanged
chat's serialization, and submits nothing to the executor. -/
theorem chatRouter_update_noFields (env : Env) (guid : String)
    (dn : Option String) (chat : Chat) (rest : List Chat)
    (hc : env.getChats guid true = chat :: rest)
    (hd : jsTruthyStr dn = false) :
    ChatRouter.update env guid dn =
      (Except.ok { message := "Chat not updated! No update information provided!",
                   data := env.getChatResponse chat }, []) := by
  simp [ChatRouter.update, hc, hd, updateFinish]

theorem chatRouter_update_noFields_witness :
    ChatRouter.update envSolo "iMessage;-;+15551234567" none =
      (Except.ok { message := "Chat not updated! No update information provided!",
                   data := baseResponse chatSolo }, []) :=
  chatRouter_update_noFields envSolo "iMessage;-;+15551234567" none
    chatSolo [] rfl rfl

/-- C1: when `create` succeeds, the response is the serialized chat with, for
a supplied (non-empty) `tempGuid`, that exact `tempGuid` stamped onto every
message the response carries; when `tempGuid` is absent/empty or the response
carries no messages, the serialized chat is returned unmodified. -/
theorem chatRouter_create_tempGuid (env : Env) (p : CreateParams) (chat : Chat)
    (hc : env.createChat p = some chat) :
    (ChatRouter.create env p = Except.ok
      { message := "Successfully created chat!", data := createdData env p chat }) ∧
    (isNotEmptyStr p.tempGuid = true →
      ∀ ms, (createdData env p chat).messages = some ms →
        ∀ m ∈ ms, m.tempGuid = p.tempGuid) ∧
    ((isNotEmptyStr p.tempGuid = false ∨
        (env.getChatResponse chat).messages = none ∨
        (env.getChatResponse chat).messages = some []) →
      createdData env p chat = env.getChatResponse chat) := by
  have hmain : ChatRouter.create env p = Except.ok
      { message := "Successfully created chat!", data := createdData env p chat } := by
    unfold ChatRouter.create
    rw [hc]
    rfl
  refine ⟨hmain, ?_, ?_⟩
  · intro ht ms hms m hm
    rw [createdData, if_pos ht, stampTempGuid] at hms
    simp only at hms
    rcases Option.map_eq_some'.1 hms with ⟨ms0, _, hmap⟩
    subst hmap
    rcases List.mem_map.1 hm with ⟨m0, _, hm0⟩
    subst hm0
    rfl
  · intro h
    rcases h with ht | hmsg | hmsg
    · have ht' : ¬isNotEmptyStr p.tempGuid = true := by
        rw [ht]
        exact Bool.false_ne_true
      rw [createdData, if_neg ht']
    · by_cases ht : isNotEmptyStr p.tempGuid = true
      · rw [createdData, if_pos ht, stampTempGuid,
          setMessages_self _ _ (by rw [hmsg]; rfl)]
      · rw [createdData, if_neg ht]
    · by_cases ht : isNotEmptyStr p.tempGuid = true
      · rw [createdData, if_pos ht, stampTempGuid,
          setMessages_self _ _ (by rw [hmsg]; rfl)]
      · rw [createdData, if_neg ht]

theorem chatRouter_create_tempGuid_witness :
    ChatRouter.create envCreate pCreate = Except.ok
      { message := "Successfully created chat!"
        data := { guid := "iMessage;+;chat123", displayName := some "Team",
                  messages := some [{ guid := "msg-new", tempGuid := some "abc123" }],
                  lastMessage := none } } :=
  (chatRouter_create_tempGuid envCreate pCreate chatGroup rfl).1.trans
    (congrArg Except.ok (by decide))

/-- C7: when the mark-read submission is accepted, `markRead` submits the
action and then emits `chat-read-status-changed` with payload exactly
`{chatGuid: guid, read: true}` (no mirror query conditions the emission),
before returning the acknowledgement. -/
theorem chatRouter_markRead_emits (env : Env) (guid : String)
    (h : env.markChatRead guid = Except.ok ()) :
    ChatRouter.markRead env guid =
      (Except.ok { message := "Successfully marked chat as read!" },
       [Effect.markChatReadSubmit guid,
        Effect.emitMessage "chat-read-status-changed" { chatGuid := guid, read := true }]) := by
  simp [ChatRouter.markRead, h]

theorem chatRouter_markRead_emits_witness :
    ChatRouter.markRead envSolo "iMessage;-;+15551234567" =
      (Except.ok { message := "Successfully marked chat as read!" },
       [Effect.markChatReadSubmit "iMessage;-;+15551234567",
        Effect.emitMessage "chat-read-status-changed"
          { chatGuid := "iMessage;-;+15551234567", read := true }]) :=
  chatRouter_markRead_emits envSolo "iMessage;-;+15551234567" rfl

/-- C3: a roster toggle with `remove` on a chat whose roster has at most one
participant (so removal would reduce it below one) is rejected with
`InvalidOperation` and produces an empty effect trace: nothing reaches the
action executor. -/
theorem chatRouter_toggle_removeLast_rejected (env : Env) (guid address : String)
    (chat : Chat) (rest : List Chat)
    (hc : env.getChats guid true = chat :: rest)
    (hp : chat.participants.length ≤ 1) :
    ChatRouter.toggleParticipant env guid address ToggleAction.remove =
      (Except.error (ApiError.invalidOperation
        "A chat may not be reduced below one participant"), []) := by
  simp [ChatRouter.toggleParticipant, hc, ChatInterface.toggleParticipant, hp]

theorem chatRouter_toggle_removeLast_rejected_witness :
    ChatRouter.toggleParticipant envSolo "iMessage;-;+15551234567" "+15551234567"
      ToggleAction.remove =
      (Except.error (ApiError.invalidOperation
        "A chat may not be reduced below one participant"), []) :=
  chatRouter_toggle_removeLast_rejected envSolo "iMessage;-;+15551234567"
    "+15551234567" chatSolo [] rfl (by decide)

end BlueBubbles
